import Mathlib

/-!
Verification of the request-construction and response-interpretation layer
of the Gemini Style Remix front-end (services/geminiService.ts and the
history update in App.tsx), shallowly embedded in Lean.

Strings are modelled by Lean strings; JavaScript string truthiness is made
explicit (a string is truthy iff non-empty, an optional value is truthy iff
present and, for strings, non-empty).  The network call is modelled by an
explicit service function of type GenRequest → Except String GenResponse,
and each entry point also returns the list of requests it sent, so that
"no network call was attempted" is expressible.
-/

namespace StyleRemix

/-- Boolean test that the first list leads (starts) the second, character by
character; models the position-0 match step of JavaScript substring search. -/
def leadsList : List Char → List Char → Bool
  | [], _ => true
  | _ :: _, [] => false
  | a :: as, b :: bs => a == b && leadsList as bs

/-- Boolean substring occurrence on character lists; models
JavaScript String.prototype.includes. -/
def hasSub (needle : List Char) : List Char → Bool
  | [] => needle.isEmpty
  | c :: rest => leadsList needle (c :: rest) || hasSub needle rest

/-- h.includes(n) from JavaScript: does haystack h contain needle n. -/
def containsStr (h n : String) : Bool :=
  hasSub n.data h.data

/-- The separator "base64," used by the data-URI-stripping split. -/
def sepB64 : List Char := "base64,".data

/-- JavaScript String.prototype.split("base64,") on character lists:
cuts the input at every occurrence of the separator. -/
def splitB64Go : List Char → List Char → List (List Char)
  | [], acc => [acc.reverse]
  | c :: rest, acc =>
    if leadsList sepB64 (c :: rest) then
      acc.reverse :: splitB64Go (rest.drop 6) []
    else
      splitB64Go rest (c :: acc)
termination_by l _ => l.length
decreasing_by
  · simp
    omega
  · simp

/-- base64Data.includes("base64,") ? base64Data.split("base64,")[1] : base64Data
from generateStylizedImage (and inlined in removeBackground). -/
def cleanBase64 (b : String) : String :=
  if containsStr b "base64," then String.mk ((splitB64Go b.data []).getD 1 [])
  else b

/-- JavaScript String.prototype.trim: drop leading and trailing whitespace. -/
def jsTrim (s : String) : String :=
  String.mk (((s.data.dropWhile Char.isWhitespace).reverse.dropWhile
    Char.isWhitespace).reverse)

/-- The four guidance sentences selected by the influence slider, verbatim
from the source. -/
def gIgnore : String :=
  "Ignore the input image structure entirely. Composition should be determined solely by the prompt."

/-- Guidance sentence for the loose-reference band. -/
def gLoose : String :=
  "Use the input image as a loose reference. You may significantly alter the pose and structure."

/-- Guidance sentence for the maintain-structure band. -/
def gMaintain : String :=
  "Maintain the general structure and main subject placement of the input image, but adapt details to the style."

/-- Guidance sentence for the strict-adherence band. -/
def gStrict : String :=
  "Strictly adhere to the exact structure, pose, and composition of the input image. Only change the artistic rendering."

/-- The influence-to-guidance banding of generateStylizedImage. -/
def guidance (influence : Nat) : String :=
  if influence = 0 then gIgnore
  else if influence < 30 then gLoose
  else if influence < 70 then gMaintain
  else gStrict

/-- The fixed vintage-aesthetic qualifier sentence appended to the user
prompt, verbatim from the source. -/
def aestheticBase : String :=
  "Aesthetic: Vintage, sepia-toned, or aged photograph look with high detail and film grain."

/-- The character-description section pushed onto promptParts. -/
def charSection (characterDescription : String) : String :=
  "Subject Description: " ++ characterDescription ++ "."

/-- The scene/action section pushed onto promptParts. -/
def sceneSection (sceneActionDescription : String) : String :=
  "Scene & Action: " ++ sceneActionDescription ++ "."

/-- The mandatory style/atmosphere section pushed onto promptParts. -/
def styleSection (prompt : String) : String :=
  "Style & Atmosphere: " ++ prompt ++ ". " ++ aestheticBase

/-- JavaScript Array.prototype.join applied with separator two newlines. -/
def joinSep : List String → String
  | [] => ""
  | [s] => s
  | s :: rest => s ++ "\n\n" ++ joinSep rest

/-- The instruction-string assembly of generateStylizedImage: optional
sections are pushed only when truthy after trimming, the style section is
always pushed, the list is joined with blank lines, and the guidance
sentence annotated with the influence percentage is appended. -/
def buildFinalPrompt (prompt characterDescription sceneActionDescription : String)
    (influence : Nat) : String :=
  let promptParts :=
    (if jsTrim characterDescription = "" then []
     else [charSection characterDescription])
    ++ (if jsTrim sceneActionDescription = "" then []
        else [sceneSection sceneActionDescription])
    ++ [styleSection prompt]
  joinSep promptParts ++ "\n\nIMPORTANT INSTRUCTION: " ++ guidance influence
    ++ " (Structural Adherence: " ++ toString influence ++ "%)"

/-- An inline binary payload of a response part, with its optional declared
mime type. -/
structure InlineData where
  data : String
  mimeType : Option String
deriving DecidableEq

/-- One part of a candidate content: an optional inline payload and an
optional text payload. -/
structure ResponsePart where
  inlineData : Option InlineData
  text : Option String
deriving DecidableEq

/-- The content of a candidate: an optional list of parts. -/
structure Content where
  parts : Option (List ResponsePart)
deriving DecidableEq

/-- One candidate of an API response. -/
structure Candidate where
  content : Option Content
deriving DecidableEq

/-- An API response: an ordered list of candidates. -/
structure GenResponse where
  candidates : List Candidate
deriving DecidableEq

/-- data:<mime>;base64,<payload> with the mime type defaulting to image/png
when absent or empty (JavaScript || on the declared mime type). -/
def mkDataUrl (d : InlineData) : String :=
  (match d.mimeType with
    | some m => if m = "" then "data:image/png;base64," else "data:" ++ m ++ ";base64,"
    | none => "data:image/png;base64,") ++ d.data

/-- One iteration of the part-scanning loop of generateStylizedImage:
an inline payload (re)sets the image url, otherwise a truthy text payload
(re)sets the accompanying text. -/
def scanStep (acc : Option String × Option String) (part : ResponsePart) :
    Option String × Option String :=
  match part.inlineData with
  | some d => (some (mkDataUrl d), acc.2)
  | none =>
    match part.text with
    | some t => if t = "" then acc else (acc.1, some t)
    | none => acc

/-- The part-scanning loop of generateStylizedImage over all parts. -/
def scanParts (ps : List ResponsePart) : Option String × Option String :=
  ps.foldl scanStep (none, none)

/-- One iteration of the part-scanning loop of removeBackground: only
inline payloads are recorded. -/
def scanStepBg (acc : Option String) (part : ResponsePart) : Option String :=
  match part.inlineData with
  | some d => some (mkDataUrl d)
  | none => acc

/-- The part-scanning loop of removeBackground over all parts. -/
def scanPartsBg (ps : List ResponsePart) : Option String :=
  ps.foldl scanStepBg none

/-- Inspect only the first candidate (candidates[0]) of the response, guarded
by the truthiness checks of the source, and scan its parts. -/
def interpretResponse (response : GenResponse) : Option String × Option String :=
  match response.candidates.head? with
  | some cand =>
    match cand.content with
    | some content =>
      match content.parts with
      | some ps => scanParts ps
      | none => (none, none)
    | none => (none, none)
  | none => (none, none)

/-- First-candidate part scan of removeBackground (optional chaining in the
source). -/
def interpretResponseBg (response : GenResponse) : Option String :=
  match response.candidates.head? with
  | some cand =>
    match cand.content with
    | some content =>
      match content.parts with
      | some ps => scanPartsBg ps
      | none => none
    | none => none
  | none => none

/-- The missing-credential message, verbatim from the source. -/
def missingKeyMsg : String :=
  "API Key is missing. Please configure it in your .env file."

/-- The invalid-key message, verbatim from the source. -/
def invalidKeyMsg : String :=
  "Invalid or missing API Key. Please check your .env file."

/-- The invalid-request message, verbatim from the source. -/
def invalidRequestMsg : String :=
  "The request was invalid. The image might be too large or the prompt flagged."

/-- The service-overloaded message, verbatim from the source. -/
def overloadedMsg : String :=
  "The service is currently overloaded. Please try again in a moment."

/-- The safety-blocked message, verbatim from the source. -/
def safetyMsg : String :=
  "Generation blocked by safety filters. Please adjust your prompt or image."

/-- The entity-not-found message thrown verbatim ahead of all other checks. -/
def entityNotFoundMsg : String :=
  "Requested entity was not found."

/-- The empty-response message, verbatim from the source. -/
def emptyResponseMsg : String :=
  "The model returned an empty response. Please try a different prompt or image."

/-- The default message substituted for a falsy (empty) error message,
verbatim from the source. -/
def unknownErrorMsg : String := "An unknown error occurred."

/-- The catch block of generateStylizedImage: an empty (falsy) error message
is first replaced by the default unknown message, then the message is
reclassified by substring checks in the priority order of the source. -/
def classifyError (rawMessage : String) : String :=
  let message := if rawMessage = "" then unknownErrorMsg else rawMessage
  if containsStr message "Requested entity was not found" then entityNotFoundMsg
  else if containsStr message "403" || containsStr message "API key" then invalidKeyMsg
  else if containsStr message "400" then invalidRequestMsg
  else if containsStr message "503" || containsStr message "Overloaded" then overloadedMsg
  else if containsStr message "SAFETY" then safetyMsg
  else message

/-- The normalized result of a generation call. -/
structure GenerationResult where
  imageUrl : Option String
  text : Option String
deriving DecidableEq

/-- The request sent to the remote service: model identifier, assembled
instruction, inline image payload with mime type, and the quality-dependent
2K image-size configuration flag. -/
structure GenRequest where
  model : String
  instruction : String
  imageData : String
  imageMime : String
  imageSize2K : Bool
deriving DecidableEq

/-- The two quality tiers. -/
inductive Quality
  | standard
  | high
deriving DecidableEq

/-- JavaScript falsiness of the configured API key: absent or empty. -/
def keyMissing : Option String → Bool
  | none => true
  | some s => s == ""

/-- The request assembled by generateStylizedImage before the network call. -/
def buildRequest (base64Data mimeType prompt : String) (influence : Nat)
    (characterDescription sceneActionDescription : String) (quality : Quality) :
    GenRequest :=
  { model := if quality = Quality.high then "gemini-3-pro-image-preview"
             else "gemini-2.5-flash-image"
    instruction := buildFinalPrompt prompt characterDescription
      sceneActionDescription influence
    imageData := cleanBase64 base64Data
    imageMime := mimeType
    imageSize2K := quality = Quality.high }

/-- The tail of generateStylizedImage after the scan: no image means a
ModelDeclined or EmptyResponse throw, which the enclosing catch block
reclassifies; an image means success. -/
def finishGenerate (scanned : Option String × Option String) :
    Except String GenerationResult :=
  match scanned.1 with
  | none =>
    match scanned.2 with
    | some t =>
      Except.error (classifyError ("Model declined to generate image: " ++ t))
    | none => Except.error (classifyError emptyResponseMsg)
  | some url => Except.ok { imageUrl := some url, text := scanned.2 }

/-- generateStylizedImage from the source, with the environment credential
and the network transport passed explicitly.  Returns the outcome together
with the list of requests actually sent to the service. -/
def generateStylizedImage (apiKey : Option String)
    (base64Data mimeType prompt : String) (influence : Nat)
    (characterDescription sceneActionDescription : String) (quality : Quality)
    (service : GenRequest → Except String GenResponse) :
    Except String GenerationResult × List GenRequest :=
  if keyMissing apiKey then
    (Except.error (classifyError missingKeyMsg), [])
  else
    let req := buildRequest base64Data mimeType prompt influence
      characterDescription sceneActionDescription quality
    match service req with
    | Except.error e => (Except.error (classifyError e), [req])
    | Except.ok response => (finishGenerate (interpretResponse response), [req])

/-- The fixed background-removal instruction, verbatim from the source. -/
def bgPrompt : String :=
  "Remove the background from this image. Keep the main subject exactly as is, but place it on a solid white background."

/-- The catch block of removeBackground: the entity-not-found special case is
surfaced, everything else is wrapped generically. -/
def bgWrap (e : String) : String :=
  if e ≠ "" ∧ containsStr e "Requested entity was not found" = true then
    entityNotFoundMsg
  else "Background removal failed: " ++ e

/-- removeBackground from the source, with the environment credential and the
network transport passed explicitly.  Returns the outcome together with the
list of requests actually sent to the service. -/
def removeBackground (apiKey : Option String) (base64Data mimeType : String)
    (service : GenRequest → Except String GenResponse) :
    Except String GenerationResult × List GenRequest :=
  if keyMissing apiKey then
    (Except.error missingKeyMsg, [])
  else
    let req : GenRequest :=
      { model := "gemini-2.5-flash-image"
        instruction := bgPrompt
        imageData := cleanBase64 base64Data
        imageMime := mimeType
        imageSize2K := false }
    match service req with
    | Except.error e => (Except.error (bgWrap e), [req])
    | Except.ok response =>
      match interpretResponseBg response with
      | none => (Except.error (bgWrap "Failed to remove background."), [req])
      | some url => (Except.ok { imageUrl := some url, text := none }, [req])

/-- A retained gallery entry. -/
structure GeneratedImage where
  id : String
  imageUrl : String
  timestamp : Nat
  promptUsed : String
deriving DecidableEq

/-- The history update of handleGenerate:
setGeneratedImages(prev => [newImage, ...prev].slice(0, 4)). -/
def updateHistory (newImage : GeneratedImage) (prev : List GeneratedImage) :
    List GeneratedImage :=
  (newImage :: prev).take 4

/-- A response part carrying only an inline payload. -/
def imgPart (d : InlineData) : ResponsePart :=
  { inlineData := some d, text := none }

/-- A response part carrying only a text payload. -/
def textPart (t : String) : ResponsePart :=
  { inlineData := none, text := some t }

/-- A response whose single candidate carries the given parts. -/
def respOf (ps : List ResponsePart) : GenResponse :=
  ⟨[⟨some ⟨some ps⟩⟩]⟩

/-- A stub service that echoes the transmitted image payload back unmodified
as a single inline-image part with the transmitted mime type. -/
def echoService : GenRequest → Except String GenResponse :=
  fun req => Except.ok (respOf [imgPart ⟨req.imageData, some req.imageMime⟩])

/-- The base64 alphabet (standard alphabet plus padding). -/
def base64Chars : List Char :=
  "ABCDEFGHIJKLMNOPQRSTUVWXYZabcdefghijklmnopqrstuvwxyz0123456789+/=".data

/-- None of the substrings inspected by the catch-block classifier of
generateStylizedImage occurs in the message. -/
def noClassifierMarker (m : String) : Prop :=
  containsStr m "Requested entity was not found" = false ∧
  containsStr m "403" = false ∧ containsStr m "API key" = false ∧
  containsStr m "400" = false ∧ containsStr m "503" = false ∧
  containsStr m "Overloaded" = false ∧ containsStr m "SAFETY" = false

/-- The data of the empty string. -/
theorem data_empty : ("" : String).data = [] := rfl

/-- A part with no inline payload leaves the recorded image unchanged. -/
theorem scanStep_fst_of_no_inline (acc : Option String × Option String)
    (q : ResponsePart) (hq : q.inlineData = none) :
    (scanStep acc q).1 = acc.1 := by
  unfold scanStep
  rw [hq]
  cases q.text with
  | none => rfl
  | some t => by_cases ht : t = "" <;> simp [ht]

/-- A part that neither is text-free nor carries truthy text without an
inline payload leaves the recorded text unchanged. -/
theorem scanStep_snd_quiet (acc : Option String × Option String)
    (q : ResponsePart)
    (h : q.inlineData = none → q.text = none ∨ q.text = some "") :
    (scanStep acc q).2 = acc.2 := by
  unfold scanStep
  cases hq : q.inlineData with
  | some d => rfl
  | none => rcases h hq with ht | ht <;> simp [ht]

/-- Folding the scan over inline-free parts never changes the recorded
image. -/
theorem scanFoldl_fst_of_no_inline (qs : List ResponsePart) :
    ∀ acc, (∀ q ∈ qs, q.inlineData = none) →
      (qs.foldl scanStep acc).1 = acc.1 := by
  induction qs with
  | nil => intro acc _; rfl
  | cons q qs ih =>
    intro acc h
    rw [List.foldl_cons, ih _ (fun x hx => h x (by simp [hx]))]
    exact scanStep_fst_of_no_inline acc q (h q (by simp))

/-- Folding the scan over parts whose truthy text only occurs together with
an inline payload never changes the recorded text. -/
theorem scanFoldl_snd_quiet (qs : List ResponsePart) :
    ∀ acc, (∀ q ∈ qs, q.inlineData = none → q.text = none ∨ q.text = some "") →
      (qs.foldl scanStep acc).2 = acc.2 := by
  induction qs with
  | nil => intro acc _; rfl
  | cons q qs ih =>
    intro acc h
    rw [List.foldl_cons, ih _ (fun x hx => h x (by simp [hx]))]
    exact scanStep_snd_quiet acc q (h q (by simp))

/-- keyMissing is false on a non-empty configured key. -/
theorem keyMissing_some_false (k : String) (hk : k ≠ "") :
    keyMissing (some k) = false := by
  simp [keyMissing, hk]

/-- Unfolding generateStylizedImage when the key is present: the request is
built, sent once, and the answer is classified or interpreted. -/
theorem generate_service_eq (k b mt p c s : String) (i : Nat) (q : Quality)
    (service : GenRequest → Except String GenResponse) (hk : k ≠ "") :
    generateStylizedImage (some k) b mt p i c s q service =
      (match service (buildRequest b mt p i c s q) with
       | Except.error e =>
         (Except.error (classifyError e), [buildRequest b mt p i c s q])
       | Except.ok r =>
         (finishGenerate (interpretResponse r), [buildRequest b mt p i c s q])) := by
  unfold generateStylizedImage
  rw [keyMissing_some_false k hk]
  simp

/-- Unfolding removeBackground when the key is present. -/
theorem removeBg_service_eq (k b mt : String)
    (service : GenRequest → Except String GenResponse) (hk : k ≠ "") :
    removeBackground (some k) b mt service =
      (let req : GenRequest :=
        { model := "gemini-2.5-flash-image", instruction := bgPrompt,
          imageData := cleanBase64 b, imageMime := mt, imageSize2K := false }
       match service req with
       | Except.error e => (Except.error (bgWrap e), [req])
       | Except.ok response =>
         match interpretResponseBg response with
         | none => (Except.error (bgWrap "Failed to remove background."), [req])
         | some url => (Except.ok { imageUrl := some url, text := none }, [req])) := by
  unfold removeBackground
  rw [keyMissing_some_false k hk]
  simp

/-- Scanning the single candidate of respOf is scanning its parts. -/
theorem interpretResponse_respOf (ps : List ResponsePart) :
    interpretResponse (respOf ps) = scanParts ps := rfl

/-- Background scan of the single candidate of respOf. -/
theorem interpretResponseBg_respOf (ps : List ResponsePart) :
    interpretResponseBg (respOf ps) = scanPartsBg ps := rfl

/-- A non-empty message matched by none of the classifier substrings passes
through the catch-block classification unchanged. -/
theorem classify_pass (m : String) (hne : m ≠ "") (h : noClassifierMarker m) :
    classifyError m = m := by
  obtain ⟨h1, h2, h3, h4, h5, h6, h7⟩ := h
  simp [classifyError, hne, h1, h2, h3, h4, h5, h6, h7]

/-- Appending to a string with non-empty data yields a non-empty string. -/
theorem append_ne_empty (a b : String) (ha : a.data ≠ []) : a ++ b ≠ "" := by
  intro h
  have hd : a.data ++ b.data = [] := by
    rw [← String.data_append, h]
  exact ha (List.append_eq_nil.mp hd).1

/-- Every character of a leading match occurs in the list it leads. -/
theorem mem_of_leadsList (n : List Char) :
    ∀ h, leadsList n h = true → ∀ c ∈ n, c ∈ h := by
  induction n with
  | nil => intro h _ c hc; cases hc
  | cons a as ih =>
    intro h hl c hc
    cases h with
    | nil => cases hl
    | cons b bs =>
      simp only [leadsList, Bool.and_eq_true, beq_iff_eq] at hl
      rcases List.mem_cons.mp hc with rfl | hc'
      · simp [hl.1]
      · exact List.mem_cons_of_mem b (ih bs hl.2 c hc')

/-- Every character of an occurring substring occurs in the haystack. -/
theorem mem_of_hasSub (n : List Char) :
    ∀ h, hasSub n h = true → ∀ c ∈ n, c ∈ h := by
  intro h
  induction h with
  | nil =>
    intro hs c hc
    simp only [hasSub, List.isEmpty_iff] at hs
    rw [hs] at hc
    cases hc
  | cons b bs ih =>
    intro hs c hc
    simp only [hasSub, Bool.or_eq_true] at hs
    rcases hs with hl | hrest
    · exact mem_of_leadsList n (b :: bs) hl c hc
    · exact List.mem_cons_of_mem b (ih hrest c hc)

/-- A match at position zero is an occurrence. -/
theorem hasSub_of_leadsList (n : List Char) :
    ∀ h, leadsList n h = true → hasSub n h = true := by
  intro h hl
  cases h with
  | nil =>
    cases n with
    | nil => rfl
    | cons a as => cases hl
  | cons b bs => simp [hasSub, hl]

/-- A list leads itself followed by anything. -/
theorem leadsList_append_self (n rest : List Char) :
    leadsList n (n ++ rest) = true := by
  induction n with
  | nil => rfl
  | cons a as ih => simp [leadsList, ih]

/-- Splitting a chunk free of the separator yields one segment: the pending
accumulator followed by the chunk. -/
theorem splitGo_no_sep (t : List Char) :
    ∀ acc, hasSub sepB64 t = false → splitB64Go t acc = [acc.reverse ++ t] := by
  induction t with
  | nil => intro acc _; simp [splitB64Go]
  | cons c rest ih =>
    intro acc h
    simp only [hasSub, Bool.or_eq_false_iff] at h
    rw [splitB64Go, if_neg (by simp [h.1]), ih _ h.2]
    simp

/-- A payload with no occurrence of "base64," is transmitted unchanged. -/
theorem cleanBase64_of_not_contains (b : String)
    (h : containsStr b "base64," = false) : cleanBase64 b = b := by
  simp [cleanBase64, h]

/-- Stripping the "base64," prefix from a prefixed payload recovers the
payload. -/
theorem cleanBase64_strip (t : String) (h : containsStr t "base64," = false) :
    cleanBase64 ("base64," ++ t) = t := by
  have hdata : ("base64," ++ t).data = sepB64 ++ t.data := String.data_append _ t
  have hcontains : containsStr ("base64," ++ t) "base64," = true := by
    unfold containsStr
    rw [hdata]
    exact hasSub_of_leadsList _ _ (leadsList_append_self _ _)
  have hstep : splitB64Go (sepB64 ++ t.data) [] = [] :: splitB64Go t.data [] := by
    rw [show sepB64 ++ t.data = 'b' :: ("ase64,".data ++ t.data) from rfl]
    rw [splitB64Go,
      if_pos (show leadsList sepB64 ('b' :: ("ase64,".data ++ t.data)) = true
        from leadsList_append_self sepB64 t.data)]
    rw [show (6 : Nat) = ("ase64,".data).length from rfl, List.drop_left]
    rfl
  have hno : hasSub sepB64 t.data = false := h
  unfold cleanBase64
  rw [if_pos hcontains, hdata, hstep, splitGo_no_sep t.data [] hno]
  simp

/-- A string all of whose characters are base64-alphabet characters contains
no occurrence of "base64," (the separator carries a comma, which is not in
the alphabet). -/
theorem no_contains_of_base64 (b : String)
    (hb : ∀ c ∈ b.data, c ∈ base64Chars) :
    containsStr b "base64," = false := by
  by_contra hcon
  have h' : containsStr b "base64," = true := by
    cases hx : containsStr b "base64," with
    | false => exact absurd hx hcon
    | true => rfl
  have hmem : ',' ∈ b.data :=
    mem_of_hasSub _ b.data h' ',' (by decide)
  exact absurd (hb ',' hmem) (by decide)

/-- C1: for every integer influence in [0,100] the Request Builder selects
exactly one guidance sentence by the four bands evaluated in order —
influence = 0 the ignore sentence, 0 < influence < 30 the loose-reference
sentence, 30 ≤ influence < 70 the maintain-structure sentence,
influence ≥ 70 the strict-adherence sentence — and at 0, 29, 30, 69, 70,
100 the selected sentence is the first, second, third, third, fourth and
fourth band sentence respectively. -/
theorem guidance_band_selection (n : Nat) (hn : n ≤ 100) :
    (n = 0 → guidance n = gIgnore) ∧
    (0 < n → n < 30 → guidance n = gLoose) ∧
    (30 ≤ n → n < 70 → guidance n = gMaintain) ∧
    (70 ≤ n → guidance n = gStrict) ∧
    (guidance 0 = gIgnore ∧ guidance 29 = gLoose ∧ guidance 30 = gMaintain ∧
     guidance 69 = gMaintain ∧ guidance 70 = gStrict ∧ guidance 100 = gStrict) := by
  refine ⟨?_, ?_, ?_, ?_, rfl, rfl, rfl, rfl, rfl, rfl⟩
  · intro h
    simp [guidance, h]
  · intro h1 h2
    unfold guidance
    rw [if_neg (by omega), if_pos h2]
  · intro h1 h2
    unfold guidance
    rw [if_neg (by omega), if_neg (by omega), if_pos h2]
  · intro h
    unfold guidance
    rw [if_neg (by omega), if_neg (by omega), if_neg (by omega)]

/-- Witness for C1 at influence 30: the boundary value selects the
maintain-structure sentence. -/
theorem guidance_band_selection_witness : guidance 30 = gMaintain :=
  (guidance_band_selection 30 (by decide)).2.2.1 (by decide) (by decide)

/-- updateHistory always keeps at most 4 entries. -/
theorem updateHistory_length_le (img : GeneratedImage)
    (prev : List GeneratedImage) : (updateHistory img prev).length ≤ 4 := by
  simp [updateHistory]

/-- C8: starting from any history of length at most 4, every successful
generation puts the new image at the front and keeps the history at length
at most 4; when the cap is already reached the oldest (last) entry is
evicted, and any sequence of updates preserves the bound. -/
theorem history_cap_newest_first :
    (∀ (img : GeneratedImage) (prev : List GeneratedImage),
       (updateHistory img prev).head? = some img) ∧
    (∀ (img : GeneratedImage) (prev : List GeneratedImage),
       prev.length ≤ 4 → (updateHistory img prev).length ≤ 4) ∧
    (∀ (img : GeneratedImage) (prev : List GeneratedImage),
       prev.length < 4 → updateHistory img prev = img :: prev) ∧
    (∀ (img : GeneratedImage) (prev : List GeneratedImage),
       prev.length = 4 → updateHistory img prev = img :: prev.dropLast) ∧
    (∀ (imgs prev : List GeneratedImage), prev.length ≤ 4 →
       (imgs.foldl (fun h i => updateHistory i h) prev).length ≤ 4) := by
  refine ⟨?_, ?_, ?_, ?_, ?_⟩
  · intro img prev
    simp [updateHistory]
  · intro img prev _
    exact updateHistory_length_le img prev
  · intro img prev h
    unfold updateHistory
    exact List.take_of_length_le (by simp; omega)
  · intro img prev h
    simp [updateHistory, List.dropLast_eq_take, h]
  · intro imgs
    induction imgs with
    | nil => intro prev h; simpa using h
    | cons a as ih =>
      intro prev _
      simpa using ih (updateHistory a prev) (updateHistory_length_le a prev)

/-- Witness for C8: a full history of four entries is capped and evicts the
oldest entry when a fifth arrives. -/
theorem history_cap_newest_first_witness :
    updateHistory ⟨"5", "u5", 5, "p"⟩
        [⟨"4", "u4", 4, "p"⟩, ⟨"3", "u3", 3, "p"⟩, ⟨"2", "u2", 2, "p"⟩,
         ⟨"1", "u1", 1, "p"⟩]
      = [⟨"5", "u5", 5, "p"⟩, ⟨"4", "u4", 4, "p"⟩, ⟨"3", "u3", 3, "p"⟩,
         ⟨"2", "u2", 2, "p"⟩] := by
  have h := history_cap_newest_first.2.2.2.1 ⟨"5", "u5", 5, "p"⟩
    [⟨"4", "u4", 4, "p"⟩, ⟨"3", "u3", 3, "p"⟩, ⟨"2", "u2", 2, "p"⟩,
     ⟨"1", "u1", 1, "p"⟩] (by decide)
  simpa using h

/-- C2: the assembled instruction concatenates, in order, the character
section only when the character description is non-empty after trimming,
the scene section only when the scene/action is non-empty after trimming,
then the mandatory style section (user prompt plus the fixed
vintage-aesthetic qualifier), then the guidance sentence annotated with the
literal influence percentage; empty optional fields contribute no section.
With an empty character description and a non-empty scene/action, the
character section is omitted entirely and the scene section included. -/
theorem finalPrompt_section_assembly (p c s : String) (i : Nat) :
    buildFinalPrompt p c s i =
      (if jsTrim c = "" then "" else charSection c ++ "\n\n") ++
      (if jsTrim s = "" then "" else sceneSection s ++ "\n\n") ++
      styleSection p ++ "\n\nIMPORTANT INSTRUCTION: " ++ guidance i ++
      " (Structural Adherence: " ++ toString i ++ "%)" ∧
    (jsTrim c = "" → jsTrim s ≠ "" →
      buildFinalPrompt p c s i =
        sceneSection s ++ "\n\n" ++ styleSection p ++
        "\n\nIMPORTANT INSTRUCTION: " ++ guidance i ++
        " (Structural Adherence: " ++ toString i ++ "%)") := by
  have main : buildFinalPrompt p c s i =
      (if jsTrim c = "" then "" else charSection c ++ "\n\n") ++
      (if jsTrim s = "" then "" else sceneSection s ++ "\n\n") ++
      styleSection p ++ "\n\nIMPORTANT INSTRUCTION: " ++ guidance i ++
      " (Structural Adherence: " ++ toString i ++ "%)" := by
    unfold buildFinalPrompt
    by_cases hc : jsTrim c = "" <;> by_cases hs : jsTrim s = "" <;>
      simp only [hc, hs, if_pos, if_neg, ite_true, ite_false, List.nil_append,
        List.cons_append, List.append_nil, List.singleton_append, joinSep] <;>
      apply String.ext <;>
      simp [String.data_append, data_empty, List.append_assoc]
  refine ⟨main, fun hc hs => ?_⟩
  rw [main]
  rw [if_pos hc, if_neg hs]
  apply String.ext
  simp [String.data_append, data_empty, List.append_assoc]

/-- Witness for C2: with an empty character description and a non-empty
scene/action the instruction starts with the scene section. -/
theorem finalPrompt_section_assembly_witness :
    buildFinalPrompt "vintage" "" "walking" 50 =
      sceneSection "walking" ++ "\n\n" ++ styleSection "vintage" ++
      "\n\nIMPORTANT INSTRUCTION: " ++ guidance 50 ++
      " (Structural Adherence: " ++ toString 50 ++ "%)" :=
  (finalPrompt_section_assembly "vintage" "" "walking" 50).2 (by decide)
    (by decide)

/-- C3: the interpreter inspects only the first candidate; scanning its
parts in order, a later inline-image part overwrites any earlier recorded
image, a later truthy text part overwrites any earlier recorded text, and
for a candidate with two inline-image parts the chosen image is the
second. -/
theorem response_scan_last_wins :
    (∀ (c : Candidate) (rest rest' : List Candidate),
       interpretResponse ⟨c :: rest⟩ = interpretResponse ⟨c :: rest'⟩) ∧
    (∀ (ps qs : List ResponsePart) (d : InlineData),
       (∀ q ∈ qs, q.inlineData = none) →
       (scanParts (ps ++ imgPart d :: qs)).1 = some (mkDataUrl d)) ∧
    (∀ (ps qs : List ResponsePart) (t : String), t ≠ "" →
       (∀ q ∈ qs, q.inlineData = none → q.text = none ∨ q.text = some "") →
       (scanParts (ps ++ textPart t :: qs)).2 = some t) ∧
    (∀ d1 d2 : InlineData,
       (scanParts [imgPart d1, imgPart d2]).1 = some (mkDataUrl d2)) := by
  refine ⟨fun c rest rest' => rfl, ?_, ?_, fun d1 d2 => rfl⟩
  · intro ps qs d h
    unfold scanParts
    rw [List.foldl_append, List.foldl_cons,
      scanFoldl_fst_of_no_inline qs _ h]
    rfl
  · intro ps qs t ht h
    unfold scanParts
    rw [List.foldl_append, List.foldl_cons, scanFoldl_snd_quiet qs _ h]
    simp [scanStep, textPart, ht]

/-- Witness for C3: with a text part, an image part and a second image part,
the chosen image is the last image part. -/
theorem response_scan_last_wins_witness :
    (scanParts [textPart "note", imgPart ⟨"AA", some "image/png"⟩,
        imgPart ⟨"BB", some "image/png"⟩]).1
      = some (mkDataUrl ⟨"BB", some "image/png"⟩) :=
  response_scan_last_wins.2.1
    [textPart "note", imgPart ⟨"AA", some "image/png"⟩] []
    ⟨"BB", some "image/png"⟩ (by simp)

/-- C10: a part carrying both an inline-image payload and a text payload
contributes only its image — the text branch runs only for parts with no
inline payload — so a response whose only text occurs on image-carrying
parts yields a result with no accompanying text. -/
theorem image_part_text_ignored (ps : List ResponsePart)
    (h : ∀ q ∈ ps, q.inlineData = none → q.text = none) :
    (scanParts ps).2 = none ∧
    (∀ (acc : Option String × Option String) (d : InlineData) (t : String),
       scanStep acc { inlineData := some d, text := some t } =
         (some (mkDataUrl d), acc.2)) ∧
    (∀ (k b mt p c s : String) (i : Nat) (q : Quality) (u : String), k ≠ "" →
       (scanParts ps).1 = some u →
       (generateStylizedImage (some k) b mt p i c s q
           (fun _ => Except.ok (respOf ps))).1
         = Except.ok { imageUrl := some u, text := none }) := by
  have hsnd : (scanParts ps).2 = none :=
    scanFoldl_snd_quiet ps _ (fun q hq hnone => Or.inl (h q hq hnone))
  refine ⟨hsnd, fun acc d t => rfl, ?_⟩
  intro k b mt p c s i q u hk hfst
  rw [generate_service_eq k b mt p c s i q _ hk]
  simp only [interpretResponse_respOf]
  unfold finishGenerate
  rw [hfst, hsnd]

/-- Witness for C10: a single part carrying both an image and a caption
yields that image and no accompanying text. -/
theorem image_part_text_ignored_witness :
    (scanParts [⟨some ⟨"AA", none⟩, some "caption"⟩]).2 = none ∧
    (generateStylizedImage (some "key") "IMG" "image/png" "p" 50 "" ""
        Quality.standard
        (fun _ => Except.ok (respOf [⟨some ⟨"AA", none⟩, some "caption"⟩]))).1
      = Except.ok { imageUrl := some "data:image/png;base64,AA",
                    text := none } := by
  have h := image_part_text_ignored [⟨some ⟨"AA", none⟩, some "caption"⟩]
    (by intro q hq hnone; simp at hq; rw [hq] at hnone; cases hnone)
  exact ⟨h.1, h.2.2 "key" "IMG" "image/png" "p" "" "" 50 Quality.standard
    "data:image/png;base64,AA" (by decide) (by decide)⟩

/-- C4 counterexample: for a response whose only part is the text "403" and
no image part, generateStylizedImage does not carry that text — the
ModelDeclined message is re-routed through the catch-block classifier and
masked as the invalid-key message. -/
theorem model_declined_counterexample :
    ((generateStylizedImage (some "key") "IMG" "image/png" "p" 50 "" ""
        Quality.standard (fun _ => Except.ok (respOf [textPart "403"]))).1
      = Except.error invalidKeyMsg) ∧
    invalidKeyMsg ≠ "Model declined to generate image: 403" := by
  constructor
  · rw [generate_service_eq "key" "IMG" "image/png" "p" "" "" 50
      Quality.standard _ (by decide)]
    rfl
  · decide

/-- C4 amended: for a response in which the scan found no inline-image part,
generateStylizedImage fails with the EmptyResponse message when no truthy
text was recorded, and with the ModelDeclined message carrying the recorded
text when the combined message matches none of the catch-block classifier
substrings; a matching combined message is instead reclassified. -/
theorem model_declined_amended (k b mt p c s : String) (i : Nat) (q : Quality)
    (ps : List ResponsePart) (hk : k ≠ "")
    (himg : (scanParts ps).1 = none) :
    ((scanParts ps).2 = none →
       (generateStylizedImage (some k) b mt p i c s q
           (fun _ => Except.ok (respOf ps))).1
         = Except.error emptyResponseMsg) ∧
    (∀ t, (scanParts ps).2 = some t →
       noClassifierMarker ("Model declined to generate image: " ++ t) →
       (generateStylizedImage (some k) b mt p i c s q
           (fun _ => Except.ok (respOf ps))).1
         = Except.error ("Model declined to generate image: " ++ t)) := by
  constructor
  · intro htext
    rw [generate_service_eq k b mt p c s i q _ hk]
    show finishGenerate (interpretResponse (respOf ps))
      = Except.error emptyResponseMsg
    rw [interpretResponse_respOf]
    simp only [finishGenerate, himg, htext]
    rw [show classifyError emptyResponseMsg = emptyResponseMsg from by decide]
  · intro t htext hmark
    rw [generate_service_eq k b mt p c s i q _ hk]
    show finishGenerate (interpretResponse (respOf ps))
      = Except.error ("Model declined to generate image: " ++ t)
    rw [interpretResponse_respOf]
    simp only [finishGenerate, himg, htext]
    rw [classify_pass _ (append_ne_empty _ t (by decide)) hmark]

/-- Witness for the amended C4: a declining response with text "no image"
fails with the ModelDeclined message carrying that text. -/
theorem model_declined_amended_witness :
    (generateStylizedImage (some "key") "IMG" "image/png" "p" 50 "" ""
        Quality.standard (fun _ => Except.ok (respOf [textPart "no image"]))).1
      = Except.error ("Model declined to generate image: " ++ "no image") :=
  (model_declined_amended "key" "IMG" "image/png" "p" "" "" 50
      Quality.standard [textPart "no image"] (by decide) (by decide)).2
    "no image" (by decide) (by unfold noClassifierMarker; decide)

/-- C5 counterexample: a transport error with an empty message does not
pass through unchanged as Unknown — the catch block first substitutes the
default unknown-error message and surfaces that instead. -/
theorem transport_error_counterexample :
    ((generateStylizedImage (some "key") "IMG" "image/png" "p" 50 "" ""
        Quality.standard (fun _ => Except.error "")).1
      = Except.error unknownErrorMsg) ∧
    unknownErrorMsg ≠ "" := by
  constructor
  · rw [generate_service_eq "key" "IMG" "image/png" "p" "" "" 50
      Quality.standard _ (by decide)]
    rfl
  · decide

/-- C5 amended: generateStylizedImage first replaces an empty (falsy)
transport-error message by the default unknown-error message, then
reclassifies by substring checks in priority order — entity-not-found first,
then 403 or API-key signals to the invalid-key message, then 400 to the
invalid-request message, then 503 or overload signals to the overloaded
message, then safety signals to the safety message, and any other non-empty
message passes through unchanged (an empty message surfaces as the
default); a message containing both the entity marker and 403 classifies as
entity-not-found, not invalid key. -/
theorem transport_error_priority :
    (∀ m, containsStr m "Requested entity was not found" = true →
       classifyError m = entityNotFoundMsg) ∧
    (∀ m, containsStr m "Requested entity was not found" = false →
       (containsStr m "403" = true ∨ containsStr m "API key" = true) →
       classifyError m = invalidKeyMsg) ∧
    (∀ m, containsStr m "Requested entity was not found" = false →
       containsStr m "403" = false → containsStr m "API key" = false →
       containsStr m "400" = true → classifyError m = invalidRequestMsg) ∧
    (∀ m, containsStr m "Requested entity was not found" = false →
       containsStr m "403" = false → containsStr m "API key" = false →
       containsStr m "400" = false →
       (containsStr m "503" = true ∨ containsStr m "Overloaded" = true) →
       classifyError m = overloadedMsg) ∧
    (∀ m, containsStr m "Requested entity was not found" = false →
       containsStr m "403" = false → containsStr m "API key" = false →
       containsStr m "400" = false → containsStr m "503" = false →
       containsStr m "Overloaded" = false → containsStr m "SAFETY" = true →
       classifyError m = safetyMsg) ∧
    (∀ m, m ≠ "" → noClassifierMarker m → classifyError m = m) ∧
    (classifyError "" = unknownErrorMsg) ∧
    (∀ (k b mt p c s : String) (i : Nat) (q : Quality) (e : String), k ≠ "" →
       (generateStylizedImage (some k) b mt p i c s q
           (fun _ => Except.error e)).1 = Except.error (classifyError e)) ∧
    (classifyError "Error 403: Requested entity was not found"
        = entityNotFoundMsg ∧
     entityNotFoundMsg ≠ invalidKeyMsg) := by
  refine ⟨?_, ?_, ?_, ?_, ?_, classify_pass, by decide, ?_, by decide, by decide⟩
  · intro m h
    have hne : m ≠ "" := by
      rintro rfl
      exact absurd h (by decide)
    simp [classifyError, hne, h]
  · intro m h1 h2
    have hne : m ≠ "" := by
      rintro rfl
      rcases h2 with h2 | h2 <;> exact absurd h2 (by decide)
    rcases h2 with h2 | h2 <;> simp [classifyError, hne, h1, h2]
  · intro m h1 h2 h3 h4
    have hne : m ≠ "" := by
      rintro rfl
      exact absurd h4 (by decide)
    simp [classifyError, hne, h1, h2, h3, h4]
  · intro m h1 h2 h3 h4 h5
    have hne : m ≠ "" := by
      rintro rfl
      rcases h5 with h5 | h5 <;> exact absurd h5 (by decide)
    rcases h5 with h5 | h5 <;> simp [classifyError, hne, h1, h2, h3, h4, h5]
  · intro m h1 h2 h3 h4 h5 h6 h7
    have hne : m ≠ "" := by
      rintro rfl
      exact absurd h7 (by decide)
    simp [classifyError, hne, h1, h2, h3, h4, h5, h6, h7]
  · intro k b mt p c s i q e hk
    rw [generate_service_eq k b mt p c s i q _ hk]

/-- Witness for C5: a message carrying a 403 signal and no entity marker
classifies as the invalid-key message. -/
theorem transport_error_priority_witness :
    classifyError "HTTP 403" = invalidKeyMsg :=
  transport_error_priority.2.1 "HTTP 403" (by decide) (Or.inl (by decide))

/-- C6: a base64 image payload is transmitted unchanged (any "base64,"
prefix is stripped, and the strip is otherwise the identity), and if a stub
service echoes the transmitted payload back as an inline-image part with
mime type image/png, interpretation yields
data:image/png;base64,&lt;payload&gt; as the image url. -/
theorem image_payload_round_trip (b : String)
    (hb : ∀ ch ∈ b.data, ch ∈ base64Chars)
    (k p c s : String) (i : Nat) (q : Quality) (hk : k ≠ "") :
    cleanBase64 b = b ∧
    (∀ t : String, containsStr t "base64," = false →
       cleanBase64 ("base64," ++ t) = t) ∧
    (generateStylizedImage (some k) b "image/png" p i c s q echoService).1
      = Except.ok { imageUrl := some ("data:image/png;base64," ++ b),
                    text := none } := by
  have hclean : cleanBase64 b = b :=
    cleanBase64_of_not_contains b (no_contains_of_base64 b hb)
  refine ⟨hclean, fun t ht => cleanBase64_strip t ht, ?_⟩
  rw [generate_service_eq k b "image/png" p c s i q echoService hk]
  show finishGenerate (interpretResponse (respOf
      [imgPart ⟨cleanBase64 b, some "image/png"⟩])) = _
  rw [hclean]
  rfl

/-- Witness for C6: the round trip on the payload QUJD. -/
theorem image_payload_round_trip_witness :
    cleanBase64 "QUJD" = "QUJD" ∧
    (generateStylizedImage (some "key") "QUJD" "image/png" "p" 50 "" ""
        Quality.standard echoService).1
      = Except.ok { imageUrl := some ("data:image/png;base64," ++ "QUJD"),
                    text := none } := by
  have h := image_payload_round_trip "QUJD" (by decide) "key" "p" "" "" 50
    Quality.standard (by decide)
  exact ⟨h.1, h.2.2⟩

/-- C7: with an absent (empty or undefined) API key, both entry points fail
with the missing-credential message and send no request to the service. -/
theorem missing_key_no_request (k : Option String) (hk : keyMissing k = true)
    (b mt p c s : String) (i : Nat) (q : Quality)
    (service : GenRequest → Except String GenResponse) :
    generateStylizedImage k b mt p i c s q service
        = (Except.error missingKeyMsg, []) ∧
    removeBackground k b mt service = (Except.error missingKeyMsg, []) := by
  have hclass : classifyError missingKeyMsg = missingKeyMsg := by decide
  constructor
  · unfold generateStylizedImage
    rw [hk]
    simp [hclass]
  · unfold removeBackground
    rw [hk]
    simp

/-- Witness for C7: with an undefined key neither entry point sends a
request. -/
theorem missing_key_no_request_witness :
    generateStylizedImage none "IMG" "image/png" "p" 50 "" "" Quality.standard
        (fun _ => Except.error "network") = (Except.error missingKeyMsg, []) ∧
    removeBackground none "IMG" "image/png" (fun _ => Except.error "network")
        = (Except.error missingKeyMsg, []) :=
  missing_key_no_request none (by decide) "IMG" "image/png" "p" "" "" 50
    Quality.standard (fun _ => Except.error "network")

/-- C9: removeBackground distinguishes only the entity-not-found special
case, surfaced verbatim; every other failure — transport errors with 403,
400, 503 or safety signals included, and the no-image case — is wrapped
into the generic background-removal-failed message, never mapped to the
invalid-key, invalid-request, overloaded or safety messages. -/
theorem background_removal_classification (k b mt : String) (hk : k ≠ "") :
    (∀ e : String, containsStr e "Requested entity was not found" = true →
       (removeBackground (some k) b mt (fun _ => Except.error e)).1
         = Except.error entityNotFoundMsg) ∧
    (∀ e : String, containsStr e "Requested entity was not found" = false →
       (removeBackground (some k) b mt (fun _ => Except.error e)).1
         = Except.error ("Background removal failed: " ++ e)) ∧
    (∀ ps : List ResponsePart, scanPartsBg ps = none →
       (removeBackground (some k) b mt (fun _ => Except.ok (respOf ps))).1
         = Except.error "Background removal failed: Failed to remove background.") ∧
    ((removeBackground (some k) b mt (fun _ => Except.error "HTTP 403")).1
        = Except.error ("Background removal failed: " ++ "HTTP 403") ∧
     "Background removal failed: " ++ "HTTP 403" ≠ invalidKeyMsg ∧
     "Background removal failed: " ++ "HTTP 403" ≠ invalidRequestMsg ∧
     "Background removal failed: " ++ "HTTP 403" ≠ overloadedMsg ∧
     "Background removal failed: " ++ "HTTP 403" ≠ safetyMsg) := by
  have hwrap_ent : ∀ e : String,
      containsStr e "Requested entity was not found" = true →
      bgWrap e = entityNotFoundMsg := by
    intro e he
    have hne : e ≠ "" := by
      rintro rfl
      exact absurd he (by decide)
    simp [bgWrap, hne, he]
  have hwrap_gen : ∀ e : String,
      containsStr e "Requested entity was not found" = false →
      bgWrap e = "Background removal failed: " ++ e := by
    intro e he
    unfold bgWrap
    rw [if_neg]
    rintro ⟨_, hc⟩
    rw [he] at hc
    cases hc
  have hgen : ∀ e : String,
      containsStr e "Requested entity was not found" = false →
      (removeBackground (some k) b mt (fun _ => Except.error e)).1
        = Except.error ("Background removal failed: " ++ e) := by
    intro e he
    rw [removeBg_service_eq k b mt _ hk]
    show Except.error (bgWrap e) = _
    rw [hwrap_gen e he]
  refine ⟨?_, hgen, ?_, hgen "HTTP 403" (by decide), by decide, by decide,
    by decide, by decide⟩
  · intro e he
    rw [removeBg_service_eq k b mt _ hk]
    show Except.error (bgWrap e) = _
    rw [hwrap_ent e he]
  · intro ps hscan
    rw [removeBg_service_eq k b mt _ hk]
    simp only [interpretResponseBg_respOf, hscan]
    rfl

/-- Witness for C9: a transport error with a 403 signal is wrapped
generically. -/
theorem background_removal_classification_witness :
    (removeBackground (some "key") "IMG" "image/png"
        (fun _ => Except.error "boom")).1
      = Except.error ("Background removal failed: " ++ "boom") :=
  (background_removal_classification "key" "IMG" "image/png" (by decide)).2.1
    "boom" (by decide)

end StyleRemix
